import Mathlib

/-!
Verification development for the `indian_facilities` harvesting scripts.

The Python sources are shallowly embedded:

* `banking/scrape.py` — the pagination loop of `get_type` (lines 110–139)
  and the token-caching discipline of `service_call` (lines 41–67);
* `banking/convert.py` — the coordinate-cleaning conversion loop;
* `police/mp/scrape.py` — the per-district fetch/cache pipeline of
  `scrape_district_police_stations` (lines 136–190);
* `police/mp/export.py` — `classify_station` and `collate_all`.

Remote HTTP responses are modelled as oracles (records of `Except` values
and functions) supplied as parameters; file-system state (the per-key
cache files) is passed explicitly and returned.  A paginated source is
modelled as the full stable list of records it serves, a fetch at
`offset`/`limit` returning the slice `(source.drop offset).take limit` —
this is exactly the "source returns identical data on every call" premise
of the resumption claims.  Python's `float()` is modelled on the fragment
the data exercises: optional sign, decimal digits with at most one point,
and the special texts `nan`/`inf`/`infinity`; parses are represented
exactly (decimal components as naturals, specials as constructors), with
`PyFloat.toRat` giving the numeric value of a finite parse.
-/

namespace IndianFacilities

/-- Instrumented observables of one `get_type` run: the final cache-file
contents, the number of `service_call` fetches issued, the offsets they
were issued at (in order), and the cache-file contents after each append
(the durability snapshots). -/
structure LoopOut (R : Type) where
  cache : List R
  calls : Nat
  offsets : List Nat
  snaps : List (List R)
  deriving Repr, DecidableEq

/-- One fetch against the remote source: records `offset … offset+limit-1`
of the stable full record list (`dbie_getBankGetData` with `offsetValue`
and `limitValue`). -/
def fetchPage {R : Type} (source : List R) (offset limit : Nat) : List R :=
  (source.drop offset).take limit

/-- The `while True` loop of `get_type` (`banking/scrape.py` lines
122–137): fetch a page at the current offset, append it to the cache
file, stop when the page is shorter than `limit`, else advance the offset
by `limit`.  Structural recursion on a fuel bound (the Python loop has no
bound; every lemma below supplies fuel shown sufficient for positive
`limit`, where the loop provably terminates). -/
def getTypeLoop {R : Type} (source : List R) (limit : Nat) :
    Nat → List R → Nat → LoopOut R
  | 0, cache, _ => ⟨cache, 0, [], []⟩
  | fuel + 1, cache, offset =>
    let page := fetchPage source offset limit
    if page.length < limit then
      ⟨cache ++ page, 1, [offset], [cache ++ page]⟩
    else
      let rest := getTypeLoop source limit fuel (cache ++ page) (offset + limit)
      ⟨rest.cache, rest.calls + 1, offset :: rest.offsets, (cache ++ page) :: rest.snaps⟩

/-- Driver `get_type` for one type key (`banking/scrape.py` lines 110–139): read
the existing cache file `cache0`, start the loop at
`offset = len(all_typ_data)`, the count of already-cached records. -/
def get_type {R : Type} (source : List R) (limit : Nat) (cache0 : List R) : LoopOut R :=
  getTypeLoop source limit (source.length + 1) cache0 cache0.length

/-- Exact-valued model of a Python `float(...)` result on the fragment the
converter exercises: `num neg ip fp fpLen` denotes
`(-1)^neg * (ip + fp / 10^fpLen)`; `inf`/`nan` are the IEEE specials that
`float` happily produces from the texts `inf`/`infinity`/`nan`. -/
inductive PyFloat
  | num (neg : Bool) (ip fp fpLen : Nat)
  | inf (neg : Bool)
  | nan
  deriving Repr, DecidableEq

def PyFloat.isFinite : PyFloat → Bool
  | PyFloat.num _ _ _ _ => true
  | _ => false

/-- Numeric value of a finite parse, `none` for the specials. -/
def PyFloat.toRat : PyFloat → Option ℚ
  | PyFloat.num neg ip fp fpLen =>
    some ((if neg then (-1 : ℚ) else 1) * ((ip : ℚ) + (fp : ℚ) / (10 : ℚ) ^ fpLen))
  | _ => none

def digitsVal (cs : List Char) : Nat :=
  cs.foldl (fun acc c => acc * 10 + (c.toNat - '0'.toNat)) 0

def allDigits (cs : List Char) : Bool := cs.all Char.isDigit

/-- Model of `float(s)` on a character list: optional sign; `nan`/`inf`/`infinity`
(case-insensitive); otherwise digits with at most one decimal point and
at least one digit.  Anything else raises `ValueError`, modelled as
`none`. -/
def pyFloatOfChars (cs : List Char) : Option PyFloat :=
  let neg : Bool := match cs with | '-' :: _ => true | _ => false
  let body : List Char := match cs with
    | '-' :: rest => rest
    | '+' :: rest => rest
    | _ => cs
  let lower := body.map Char.toLower
  if lower = ['n', 'a', 'n'] then some PyFloat.nan
  else if lower = ['i', 'n', 'f'] ∨ lower = ['i', 'n', 'f', 'i', 'n', 'i', 't', 'y'] then
    some (PyFloat.inf neg)
  else
    let ip := body.takeWhile (fun c => c ≠ '.')
    let rest := body.dropWhile (fun c => c ≠ '.')
    match rest with
    | [] =>
      if allDigits ip ∧ ip ≠ [] then
        some (PyFloat.num neg (digitsVal ip) 0 0)
      else none
    | _ :: fp =>
      if allDigits ip ∧ allDigits fp ∧ (ip ≠ [] ∨ fp ≠ []) then
        some (PyFloat.num neg (digitsVal ip) (digitsVal fp) fp.length)
      else none

def pyFloat (s : String) : Option PyFloat := pyFloatOfChars s.toList

/-- Helper `clean` from `banking/convert.py` lines 4–6: strip every backslash. -/
def clean (s : String) : String := String.mk (s.toList.filter (fun c => c ≠ '\\'))

/-- One parsed JSONL line of a banking cache file: the two coordinate
fields (absent when the JSON object lacks the key — `item.pop` then
raises `KeyError`) and the remaining properties. -/
structure RawItem where
  longitude : Option String
  lattitude : Option String
  rest : List (String × String)
  deriving Repr, DecidableEq

/-- An emitted GeoJSON Feature:
`{'geometry': {'coordinates': [lon, lat]}, 'properties': item}`. -/
structure BankFeature where
  lon : PyFloat
  lat : PyFloat
  properties : List (String × String)
  deriving Repr, DecidableEq

/-- The `coordinates` array, longitude first. -/
def BankFeature.coords (f : BankFeature) : PyFloat × PyFloat := (f.lon, f.lat)

/-- Observables of one `convert.py` pass over a cache file: features
written, number of rejection log lines (`print(count, line)` in the
`except` branch), and whether the pass died with an uncaught exception. -/
structure ConvertOut where
  feats : List BankFeature
  rejected : Nat
  aborted : Bool
  deriving Repr, DecidableEq

/-- The per-file loop of `banking/convert.py` lines 15–29: pop both
coordinate fields (an absent key raises `KeyError`, killing the whole
pass), try `float(clean(…))` on both, skip-and-log on parse failure,
otherwise emit the Feature. -/
def convertFile : List RawItem → ConvertOut
  | [] => ⟨[], 0, false⟩
  | item :: items =>
    match item.longitude, item.lattitude with
    | some ls, some lt =>
      match pyFloat (clean ls), pyFloat (clean lt) with
      | some lonv, some latv =>
        let r := convertFile items
        ⟨⟨lonv, latv, item.rest⟩ :: r.feats, r.rejected, r.aborted⟩
      | _, _ =>
        let r := convertFile items
        ⟨r.feats, r.rejected + 1, r.aborted⟩
    | _, _ => ⟨[], 0, true⟩

/-- Oracle for everything one district's scrape touches remotely:
the district page fetch (`httpx.get` + `raise_for_status`, an exception
collapsed to `Except.error`), `extract_google_maps_id` on its HTML, the
KML export fetch, the KMZ `doc.kml` extraction, and
`kml_to_geojson_features`. -/
structure DistrictSrc (F : Type) where
  pageResp : Except Unit String
  extractId : String → Option String
  kmlResp : String → Except Unit String
  unzip : String → Except Unit String
  convert : String → List F

/-- Observables of one `scrape_district_police_stations` call: returned
feature list, the district's cache file afterwards (`none` = file
absent), HTTP fetches issued, and whole-file cache writes performed. -/
structure ScrapeOut (F : Type) where
  result : List F
  cache : Option (List F)
  httpGets : Nat
  writes : Nat
  deriving Repr, DecidableEq

/-- Function `scrape_district_police_stations` (`police/mp/scrape.py` lines
136–190).  `cache` is the district's `.geojsonl` file: `none` when the
file does not exist, `some l` its record lines when it does. -/
def scrape_district {F : Type} (src : DistrictSrc F) (cache : Option (List F))
    (force : Bool) : ScrapeOut F :=
  if !force && cache.isSome then ⟨[], cache, 0, 0⟩
  else
    match src.pageResp with
    | Except.error _ => ⟨[], cache, 1, 0⟩
    | Except.ok html =>
      match src.extractId html with
      | none => ⟨[], cache, 1, 0⟩
      | some mid =>
        match src.kmlResp mid with
        | Except.error _ => ⟨[], cache, 2, 0⟩
        | Except.ok kmz =>
          match src.unzip kmz with
          | Except.error _ => ⟨[], cache, 2, 0⟩
          | Except.ok kml =>
            let feats := src.convert kml
            ⟨feats, some feats, 2, 1⟩

/-- What the fetch-and-convert pipeline of one district yields when run to
the end: `none` when any of the four stages (district page, map-id
extraction, KML fetch, KMZ extraction) fails, `some features`
otherwise. -/
def pipeline {F : Type} (src : DistrictSrc F) : Option (List F) :=
  match src.pageResp with
  | Except.error _ => none
  | Except.ok html =>
    match src.extractId html with
    | none => none
    | some mid =>
      match src.kmlResp mid with
      | Except.error _ => none
      | Except.ok kmz =>
        match src.unzip kmz with
        | Except.error _ => none
        | Except.ok kml => some (src.convert kml)

abbrev Props := List (String × String)

/-- A feature of a district GeoJSONL cache file (its `properties` dict). -/
structure PFeature where
  props : Props
  deriving Repr, DecidableEq

def SPECIAL_STYLE : String := "#icon-1899-0288D1"

/-- Classifier `classify_station` from `police/mp/export.py` lines 22–25. -/
def classify_station (f : PFeature) : String :=
  if (f.props.lookup "styleUrl").getD "" = SPECIAL_STYLE then "special" else "regular"

/-- One line of a district cache file: blank (skipped by
`if line.strip()`) or a feature record. -/
inductive CacheLine
  | blank
  | record (f : PFeature)
  deriving Repr, DecidableEq

def isRecordLine : CacheLine → Bool
  | CacheLine.blank => false
  | CacheLine.record _ => true

/-- Drop every binding of key `k` (Python dict keys are unique). -/
def removeKey : Props → String → Props
  | [], _ => []
  | kv :: p, k => if kv.1 == k then removeKey p k else kv :: removeKey p k

/-- Python dict assignment `props[k] = v`. -/
def setProp (p : Props) (k v : String) : Props :=
  (k, v) :: removeKey p k

/-- What `collate_all` does with one line: skip blanks, tag records with
their classification. -/
def processLine : CacheLine → Option PFeature
  | CacheLine.blank => none
  | CacheLine.record f => some ⟨setProp f.props "station_type" (classify_station f)⟩

def processFile (ls : List CacheLine) : List PFeature :=
  ls.filterMap processLine

/-- Lexicographic (code-point) order on filenames, as `sorted(...)` uses
on the district cache paths. -/
def charListLe : List Char → List Char → Bool
  | [], _ => true
  | _ :: _, [] => false
  | c :: cs, d :: ds =>
    if c < d then true else if d < c then false else charListLe cs ds

def fileNameLe (a b : String × List CacheLine) : Bool :=
  charListLe a.1.toList b.1.toList

/-- Collator `collate_all` (`police/mp/export.py` lines 28–42):
`sorted(DATA_DIR.glob("*.geojsonl"))` visits the cache files in
lexicographic filename order; every non-blank line is parsed, tagged with
`station_type`, and appended. -/
def collate_all (files : List (String × List CacheLine)) : List PFeature :=
  (files.mergeSort fileNameLe).flatMap (fun f => processFile f.2)

/-- Count `sum(1 for f in features if f["properties"]["station_type"] == "special")`. -/
def specialCount (fs : List PFeature) : Nat :=
  fs.countP (fun f => f.props.lookup "station_type" = some "special")

/-- Count `regular = len(features) - special`. -/
def regularCount (fs : List PFeature) : Nat := fs.length - specialCount fs

/-- One response to `session.post` in `service_call`: its `ok` status and
its `authorization` response header. -/
structure SvcResponse where
  ok : Bool
  authHeader : String
  deriving Repr, DecidableEq

/-- The request headers `service_call` sends given the current global
`token` (`banking/scrape.py` lines 44–49). -/
def serviceCallSentHeaders (token : Option String) : List (String × String) :=
  [("datatype", "application/json"), ("channelkey", "key2")]
    ++ (match token with | some t => [("authorization", t)] | none => [])

/-- The token-state transition of one `service_call` (lines 51–56): on a
non-ok response raise (token untouched); on an ok response capture the
response's `authorization` header, but only when the global token is
still unset.  Returns the new token and whether the call got past the
status check. -/
def serviceCallStep (token : Option String) (resp : SvcResponse) :
    Option String × Bool :=
  if resp.ok then
    (if token.isNone then some resp.authHeader else token, true)
  else (token, false)

/-- A district oracle on which every pipeline stage succeeds. -/
def sampleSrcOk : DistrictSrc Nat :=
  ⟨Except.ok "html", fun _ => some "mid", fun _ => Except.ok "kmz",
   fun _ => Except.ok "kml", fun _ => [7]⟩

/-- A district oracle whose district-page fetch fails. -/
def sampleSrcFail : DistrictSrc Nat :=
  ⟨Except.error (), fun _ => none, fun _ => Except.error (),
   fun _ => Except.error (), fun _ => []⟩

theorem takeSlice_append {R : Type} (l : List R) (m n : Nat) :
    l.take m ++ (l.drop m).take n = l.take (m + n) := by
  have h1 : (l.take (m + n)).take m = l.take m := by
    rw [List.take_take, Nat.min_eq_left (by omega)]
  rw [← h1, List.take_drop]
  exact List.take_append_drop m (l.take (m + n))

theorem getTypeLoop_cache {R : Type} (source : List R) (limit : Nat)
    (hl : 0 < limit) :
    ∀ n offset cache, source.length - offset ≤ n →
      (getTypeLoop source limit (n + 1) cache offset).cache
        = cache ++ source.drop offset := by
  intro n
  induction n with
  | zero =>
    intro offset cache hn
    have hshort : (fetchPage source offset limit).length < limit := by
      simp only [fetchPage, List.length_take, List.length_drop]
      omega
    have hdrop : source.drop offset = [] := by
      apply List.drop_eq_nil_of_le
      omega
    simp [getTypeLoop, hshort, fetchPage, hdrop]
  | succ n ih =>
    intro offset cache hn
    show (getTypeLoop source limit (n + 1 + 1) cache offset).cache = _
    rw [getTypeLoop]
    by_cases h : (fetchPage source offset limit).length < limit
    · simp only [h, if_true]
      have hshort : source.length - offset < limit := by
        simp only [fetchPage, List.length_take, List.length_drop] at h
        omega
      have : (source.drop offset).take limit = source.drop offset := by
        apply List.take_of_length_le
        simp only [List.length_drop]
        omega
      simp [fetchPage, this]
    · simp only [h, if_false]
      have hlim : limit ≤ source.length - offset := by
        simp only [fetchPage, List.length_take, List.length_drop] at h
        omega
      have hrec : (getTypeLoop source limit (n + 1)
          (cache ++ fetchPage source offset limit) (offset + limit)).cache
          = (cache ++ fetchPage source offset limit)
            ++ source.drop (offset + limit) := by
        apply ih
        omega
      simp only [hrec, List.append_assoc]
      congr 1
      have h2 : (source.drop offset).drop limit = source.drop (offset + limit) := by
        rw [List.drop_drop, Nat.add_comm]
      rw [fetchPage, ← h2, List.take_append_drop]

theorem getTypeLoop_calls {R : Type} (source : List R) (limit : Nat)
    (hl : 0 < limit) :
    ∀ n offset cache, source.length - offset ≤ n →
      (getTypeLoop source limit (n + 1) cache offset).calls
        = (source.length - offset) / limit + 1 := by
  intro n
  induction n with
  | zero =>
    intro offset cache hn
    have hshort : (fetchPage source offset limit).length < limit := by
      simp only [fetchPage, List.length_take, List.length_drop]
      omega
    have hz : source.length - offset = 0 := by omega
    simp [getTypeLoop, hshort, hz]
  | succ n ih =>
    intro offset cache hn
    show (getTypeLoop source limit (n + 1 + 1) cache offset).calls = _
    rw [getTypeLoop]
    by_cases h : (fetchPage source offset limit).length < limit
    · simp only [h, if_true]
      have hshort : source.length - offset < limit := by
        simp only [fetchPage, List.length_take, List.length_drop] at h
        omega
      rw [Nat.div_eq_of_lt hshort]
    · simp only [h, if_false]
      have hlim : limit ≤ source.length - offset := by
        simp only [fetchPage, List.length_take, List.length_drop] at h
        omega
      have hrec : (getTypeLoop source limit (n + 1)
          (cache ++ fetchPage source offset limit) (offset + limit)).calls
          = (source.length - (offset + limit)) / limit + 1 := by
        apply ih
        omega
      rw [hrec, Nat.div_eq_sub_div hl hlim]
      have : source.length - (offset + limit) = source.length - offset - limit := by
        omega
      rw [this]

theorem getTypeLoop_offsets_head {R : Type} (source : List R) (limit : Nat)
    (n : Nat) (cache : List R) (offset : Nat) :
    (getTypeLoop source limit (n + 1) cache offset).offsets.head? = some offset := by
  show (getTypeLoop source limit (n + 1) cache offset).offsets.head? = _
  rw [getTypeLoop]
  by_cases h : (fetchPage source offset limit).length < limit <;> simp [h]

theorem getTypeLoop_offsets_ge {R : Type} (source : List R) (limit : Nat) :
    ∀ n offset cache,
      ∀ o ∈ (getTypeLoop source limit n cache offset).offsets, offset ≤ o := by
  intro n
  induction n with
  | zero =>
    intro offset cache
    simp [getTypeLoop]
  | succ n ih =>
    intro offset cache
    show ∀ o ∈ (getTypeLoop source limit (n + 1) cache offset).offsets, _
    rw [getTypeLoop]
    by_cases h : (fetchPage source offset limit).length < limit
    · simp [h]
    · simp only [h, if_false, List.mem_cons]
      intro o ho
      rcases ho with rfl | ho
      · exact Nat.le_refl o
      · have := ih (offset + limit) (cache ++ fetchPage source offset limit) o ho
        omega

theorem getTypeLoop_snaps_take {R : Type} (source : List R) (limit : Nat) :
    ∀ n offset,
      ∀ s ∈ (getTypeLoop source limit n (source.take offset) offset).snaps,
        ∃ m, s = source.take m := by
  intro n
  induction n with
  | zero =>
    intro offset
    simp [getTypeLoop]
  | succ n ih =>
    intro offset
    show ∀ s ∈ (getTypeLoop source limit (n + 1) (source.take offset) offset).snaps, _
    rw [getTypeLoop]
    have hcache2 : source.take offset ++ fetchPage source offset limit
        = source.take (offset + limit) := by
      rw [fetchPage, takeSlice_append]
    by_cases h : (fetchPage source offset limit).length < limit
    · simp only [h, if_true, List.mem_singleton]
      intro s hs
      exact ⟨offset + limit, by rw [hs, hcache2]⟩
    · simp only [h, if_false, List.mem_cons]
      intro s hs
      rcases hs with rfl | hs
      · exact ⟨offset + limit, hcache2⟩
      · rw [hcache2] at hs
        exact ih (offset + limit) s hs

theorem get_type_cache {R : Type} (source : List R) (limit : Nat)
    (hl : 0 < limit) (cache0 : List R) :
    (get_type source limit cache0).cache = cache0 ++ source.drop cache0.length :=
  getTypeLoop_cache source limit hl source.length cache0.length cache0 (by omega)

theorem get_type_calls {R : Type} (source : List R) (limit : Nat)
    (hl : 0 < limit) (cache0 : List R) :
    (get_type source limit cache0).calls
      = (source.length - cache0.length) / limit + 1 :=
  getTypeLoop_calls source limit hl source.length cache0.length cache0 (by omega)

theorem get_type_offsets_head {R : Type} (source : List R) (limit : Nat)
    (cache0 : List R) :
    (get_type source limit cache0).offsets.head? = some cache0.length :=
  getTypeLoop_offsets_head source limit source.length cache0 cache0.length

theorem processFile_length (ls : List CacheLine) :
    (processFile ls).length = (ls.filter isRecordLine).length := by
  induction ls with
  | nil => rfl
  | cons l ls ih =>
    cases l with
    | blank => simpa [processFile, processLine, isRecordLine] using ih
    | record f => simpa [processFile, processLine, isRecordLine] using ih

theorem lookup_removeKey_ne (p : Props) (k a : String) (h : a ≠ k) :
    (removeKey p k).lookup a = p.lookup a := by
  induction p with
  | nil => rfl
  | cons kv p ih =>
    rcases kv with ⟨k1, v1⟩
    by_cases hk : k1 = k
    · subst hk
      have hne : (a == k1) = false := by simp [h]
      simp [removeKey, List.lookup, hne, ih]
    · have hkk : (k1 == k) = false := by simp [hk]
      cases hak : a == k1 <;> simp [removeKey, hkk, List.lookup, hak, ih]

theorem lookup_setProp_same (p : Props) (k v : String) :
    (setProp p k v).lookup k = some v := by
  simp [setProp, List.lookup]

theorem lookup_setProp_ne (p : Props) (k v a : String) (h : a ≠ k) :
    (setProp p k v).lookup a = p.lookup a := by
  have hne : (a == k) = false := by simp [h]
  simp [setProp, List.lookup, hne, lookup_removeKey_ne p k a h]

/-- Claim C1 — — Idempotent resume.  Against a source that serves identical
data on every call, a second run of the collector immediately after a
completed first run leaves the per-key cache contents exactly as the
first run left them — no cached record duplicated, none lost.  First
conjunct: `get_type` re-run on the cache file the first run produced;
second conjunct: `scrape_district_police_stations` re-run on the cache
file state the first run produced. -/
theorem C1_idempotent_resume :
    (∀ (R : Type) (source : List R) (limit : Nat), 0 < limit →
      ∀ cache0 : List R,
        (get_type source limit (get_type source limit cache0).cache).cache
          = (get_type source limit cache0).cache) ∧
    (∀ (F : Type) (src : DistrictSrc F) (cache : Option (List F)),
      (scrape_district src (scrape_district src cache false).cache false).cache
        = (scrape_district src cache false).cache) := by
  constructor
  · intro R source limit hl cache0
    rw [get_type_cache source limit hl cache0,
      get_type_cache source limit hl (cache0 ++ source.drop cache0.length)]
    have hlen : source.length ≤ (cache0 ++ source.drop cache0.length).length := by
      simp only [List.length_append, List.length_drop]
      omega
    rw [List.drop_eq_nil_of_le hlen, List.append_nil]
  · intro F src cache
    rcases cache with _ | l
    · rcases h1 : (scrape_district src none false).cache with _ | l1
      · exact h1
      · simp [scrape_district]
    · simp [scrape_district]

theorem C1_idempotent_resume_witness :
    (0 < 2) ∧
    (get_type [1, 2, 3] 2 (get_type [1, 2, 3] 2 ([] : List Nat)).cache).cache
      = (get_type [1, 2, 3] 2 ([] : List Nat)).cache ∧
    (scrape_district sampleSrcOk
        (scrape_district sampleSrcOk (none : Option (List Nat)) false).cache
        false).cache
      = (scrape_district sampleSrcOk (none : Option (List Nat)) false).cache :=
  ⟨by decide, C1_idempotent_resume.1 Nat [1, 2, 3] 2 (by decide) [],
    C1_idempotent_resume.2 Nat sampleSrcOk none⟩

/-- Claim C2 — counterexample.  The claim fails on the code in both scrapers:
`scrape_district_police_stations` skips a district whose cache file
exists but is *empty* (no fetch is issued, contradicting "a key whose
cache entry is absent or empty is not skipped"), and `get_type` issues a
fetch even when the key's cache entry is non-empty and complete
(contradicting "issues no fetch for it"). -/
theorem C2_whole_key_skip_counterexample :
    scrape_district sampleSrcOk (some ([] : List Nat)) false
      = ⟨[], some [], 0, 0⟩ ∧
    (get_type [0] 1000 [0]).calls = 1 := by
  constructor
  · decide
  · decide

/-- Claim C2 — amended — Whole-key skip on resume.  In the district scraper a
key whose cache file exists — whether empty or not — is skipped entirely
(no fetch, cache unchanged) unless the force flag is set, and a key whose
cache file is absent, or any key when force is set, does get fetched.
The banking `get_type` has no whole-key skip: it always issues at least
one fetch, starting at the cached record count, so a key whose cache
already holds all of the source's records is left unchanged by that
fetch. -/
theorem C2_whole_key_skip_amended :
    (∀ (F : Type) (src : DistrictSrc F) (l : List F),
      scrape_district src (some l) false = ⟨[], some l, 0, 0⟩) ∧
    (∀ (F : Type) (src : DistrictSrc F),
      1 ≤ (scrape_district src none false).httpGets) ∧
    (∀ (F : Type) (src : DistrictSrc F) (c : Option (List F)),
      1 ≤ (scrape_district src c true).httpGets) ∧
    (∀ (R : Type) (source : List R) (limit : Nat), 0 < limit →
      ∀ cache0 : List R,
        1 ≤ (get_type source limit cache0).calls ∧
        (get_type source limit source).cache = source) := by
  refine ⟨?_, ?_, ?_, ?_⟩
  · intro F src l
    simp [scrape_district]
  · intro F src
    rcases src with ⟨page, eid, kml, uz, conv⟩
    rcases page with u | html
    · simp [scrape_district]
    · simp only [scrape_district]
      rcases eid html with _ | mid
      · simp
      · simp only
        rcases kml mid with u | kmz
        · simp
        · simp only
          rcases uz kmz with u | k
          · simp
          · simp
  · intro F src c
    rcases src with ⟨page, eid, kml, uz, conv⟩
    rcases page with u | html
    · simp [scrape_district]
    · simp only [scrape_district, Bool.not_true, Bool.false_and]
      rcases eid html with _ | mid
      · simp
      · simp only
        rcases kml mid with u | kmz
        · simp
        · simp only
          rcases uz kmz with u | k
          · simp
          · simp
  · intro R source limit hl cache0
    constructor
    · rw [get_type_calls source limit hl cache0]
      exact Nat.le_add_left 1 _
    · rw [get_type_cache source limit hl source]
      simp

theorem C2_whole_key_skip_amended_witness :
    scrape_district sampleSrcOk (some [5]) false = ⟨[], some [5], 0, 0⟩ ∧
    1 ≤ (scrape_district sampleSrcFail none false).httpGets ∧
    1 ≤ (scrape_district sampleSrcOk (some [5]) true).httpGets ∧
    (1 ≤ (get_type [1, 2, 3] 2 ([1] : List Nat)).calls ∧
      (get_type [1, 2, 3] 2 [1, 2, 3]).cache = [1, 2, 3]) :=
  ⟨C2_whole_key_skip_amended.1 Nat sampleSrcOk [5],
    C2_whole_key_skip_amended.2.1 Nat sampleSrcFail,
    C2_whole_key_skip_amended.2.2.1 Nat sampleSrcOk (some [5]),
    C2_whole_key_skip_amended.2.2.2 Nat [1, 2, 3] 2 (by decide) [1]⟩

/-- Claim C3 — — Partial mid-key resumption.  When `get_type` starts on a key
whose cache file already holds `n` records, its first fetch is issued at
offset `n` (the cached record count), and every fetch of the run is at
offset at least `n` — already-cached records are never requested
again. -/
theorem C3_partial_resumption (R : Type) (source : List R) (limit : Nat)
    (cache0 : List R) :
    (get_type source limit cache0).offsets.head? = some cache0.length ∧
    ∀ o ∈ (get_type source limit cache0).offsets, cache0.length ≤ o := by
  constructor
  · exact get_type_offsets_head source limit cache0
  · intro o ho
    exact getTypeLoop_offsets_ge source limit (source.length + 1)
      cache0.length cache0 o ho

theorem C3_partial_resumption_witness :
    (get_type [10, 20, 30, 40, 50, 60] 2 ([10, 20] : List Nat)).offsets.head?
      = some 2 ∧
    (6 : Nat) ∈ (get_type [10, 20, 30, 40, 50, 60] 2 ([10, 20] : List Nat)).offsets ∧
    2 ≤ 6 :=
  ⟨(C3_partial_resumption Nat [10, 20, 30, 40, 50, 60] 2 [10, 20]).1,
    by decide,
    (C3_partial_resumption Nat [10, 20, 30, 40, 50, 60] 2 [10, 20]).2 6 (by decide)⟩

/-- Claim C4 — — Pagination termination.  From an empty cache, against a
source with `k * limit + r` records (`0 < r < limit`), `get_type` issues
exactly `k + 1 = ⌈total / limit⌉` fetches, the cache file after every
append is a prefix of the source list (durability of already-appended
pages), and the final cache holds exactly the `total` records in source
order. -/
theorem C4_pagination_termination (R : Type) (source : List R)
    (limit k r : Nat) (hl : 0 < limit) (hr : 0 < r) (hrl : r < limit)
    (hlen : source.length = k * limit + r) :
    (get_type source limit []).calls = k + 1 ∧
    (source.length + limit - 1) / limit = k + 1 ∧
    (get_type source limit []).cache = source ∧
    ∀ s ∈ (get_type source limit []).snaps, ∃ m, s = source.take m := by
  have hlen2 : source.length = limit * k + r := by
    rw [hlen, Nat.mul_comm]
  have hceil : (source.length + limit - 1) / limit = k + 1 := by
    have h1 : source.length + limit - 1 = (r + limit - 1) + limit * k := by
      omega
    rw [h1, Nat.add_mul_div_left _ _ hl]
    have h2 : (r + limit - 1) / limit = 1 := by
      apply Nat.div_eq_of_lt_le <;> omega
    rw [h2]
    omega
  refine ⟨?_, hceil, ?_, ?_⟩
  · rw [get_type_calls source limit hl []]
    simp only [List.length_nil, Nat.sub_zero]
    have h1 : source.length = r + limit * k := by omega
    rw [h1, Nat.add_mul_div_left _ _ hl, Nat.div_eq_of_lt hrl]
    omega
  · rw [get_type_cache source limit hl []]
    simp
  · intro s hs
    have h0 : ([] : List R) = source.take 0 := by simp
    rw [get_type] at hs
    simp only [List.length_nil] at hs
    rw [h0] at hs
    exact getTypeLoop_snaps_take source limit (source.length + 1) 0 s hs

theorem C4_pagination_termination_witness :
    (get_type [1, 2, 3, 4, 5] 2 ([] : List Nat)).calls = 2 + 1 ∧
    (5 + 2 - 1) / 2 = 2 + 1 ∧
    (get_type [1, 2, 3, 4, 5] 2 ([] : List Nat)).cache = [1, 2, 3, 4, 5] ∧
    [1, 2, 3, 4] ∈ (get_type [1, 2, 3, 4, 5] 2 ([] : List Nat)).snaps ∧
    ∃ m, [1, 2, 3, 4] = [1, 2, 3, 4, 5].take m := by
  have h := C4_pagination_termination Nat [1, 2, 3, 4, 5] 2 2 1
    (by decide) (by decide) (by decide) (by decide)
  exact ⟨h.1, h.2.1, h.2.2.1, by decide, h.2.2.2 [1, 2, 3, 4] (by decide)⟩

/-- Claim C5 — counterexample.  The converter performs no finiteness or range
check after `float()` succeeds: a raw record whose longitude text is
`"nan"` parses fine (Python `float("nan")` is NaN) and is emitted with a
NaN coordinate, contradicting "no record is ever written with null or NaN
coordinates"; likewise `"999\.9"` (out of longitude range) is emitted
as-is. -/
theorem C5_coordinate_validity_counterexample :
    convertFile [⟨some "nan", some "12.97", []⟩]
      = ⟨[⟨PyFloat.nan, PyFloat.num false 12 97 2, []⟩], 0, false⟩ ∧
    PyFloat.nan.isFinite = false ∧
    convertFile [⟨some "999\\.9", some "12\\.97", []⟩]
      = ⟨[⟨PyFloat.num false 999 9 1, PyFloat.num false 12 97 2, []⟩], 0, false⟩ ∧
    ∃ q : ℚ, (PyFloat.num false 999 9 1).toRat = some q ∧ 180 < q := by
  refine ⟨by decide, by decide, by decide, 999 + 9 / 10, ?_, by norm_num⟩
  norm_num [PyFloat.toRat]

/-- Claim C5 — amended — Coordinate parse postcondition.  Every emitted record's
coordinates are exactly the `float`-parses of its cleaned coordinate
text, and any record whose cleaned coordinate text fails to parse is
dropped with a counted rejection and never emitted.  No finiteness or
range check is performed: emission depends solely on parse success, so
text parsing to NaN, infinity, or out-of-range numbers yields an emitted
record with those coordinates. -/
theorem C5_coordinate_validity_amended :
    ∀ (item : RawItem) (items : List RawItem) (ls lt : String),
      item.longitude = some ls → item.lattitude = some lt →
      ((∀ lonv latv, pyFloat (clean ls) = some lonv → pyFloat (clean lt) = some latv →
        convertFile (item :: items)
          = ⟨⟨lonv, latv, item.rest⟩ :: (convertFile items).feats,
             (convertFile items).rejected, (convertFile items).aborted⟩) ∧
      ((pyFloat (clean ls) = none ∨ pyFloat (clean lt) = none) →
        convertFile (item :: items)
          = ⟨(convertFile items).feats, (convertFile items).rejected + 1,
             (convertFile items).aborted⟩)) := by
  intro item items ls lt hlon hlat
  constructor
  · intro lonv latv hpl hpt
    simp [convertFile, hlon, hlat, hpl, hpt]
  · intro hbad
    rcases hbad with hbad | hbad
    · simp [convertFile, hlon, hlat, hbad]
    · cases hpl : pyFloat (clean ls) <;>
        simp [convertFile, hlon, hlat, hpl, hbad]

theorem C5_coordinate_validity_amended_witness :
    convertFile [⟨some "1\\.5", some "2", [("x", "y")]⟩]
      = ⟨[⟨PyFloat.num false 1 5 1, PyFloat.num false 2 0 0, [("x", "y")]⟩], 0, false⟩ ∧
    convertFile [⟨some "bad", some "2", []⟩] = ⟨[], 1, false⟩ := by
  constructor
  · have h := (C5_coordinate_validity_amended ⟨some "1\\.5", some "2", [("x", "y")]⟩
      [] "1\\.5" "2" rfl rfl).1 (PyFloat.num false 1 5 1) (PyFloat.num false 2 0 0)
      (by decide) (by decide)
    simpa [convertFile] using h
  · have h := (C5_coordinate_validity_amended ⟨some "bad", some "2", []⟩
      [] "bad" "2" rfl rfl).2 (Or.inl (by decide))
    simpa [convertFile] using h

/-- Claim C6 — — Coordinate normalization round-trip.  A raw record with
escaped longitude text `"77\.59"` and lattitude text `"12\.97"` is
cleaned (backslashes stripped), parsed, and emitted with coordinates
exactly 77.59 and 12.97, longitude first; a record whose coordinate text
is non-numeric after cleaning is excluded with the rejection counted. -/
theorem C6_normalization_roundtrip :
    convertFile [⟨some "77\\.59", some "12\\.97", [("name", "x")]⟩]
      = ⟨[⟨PyFloat.num false 77 59 2, PyFloat.num false 12 97 2, [("name", "x")]⟩],
         0, false⟩ ∧
    (PyFloat.num false 77 59 2).toRat = some (7759 / 100) ∧
    (PyFloat.num false 12 97 2).toRat = some (1297 / 100) ∧
    (⟨PyFloat.num false 77 59 2, PyFloat.num false 12 97 2,
        [("name", "x")]⟩ : BankFeature).coords
      = (PyFloat.num false 77 59 2, PyFloat.num false 12 97 2) ∧
    convertFile [⟨some "abc", some "12\\.97", []⟩] = ⟨[], 1, false⟩ := by
  refine ⟨by decide, ?_, ?_, rfl, by decide⟩
  · norm_num [PyFloat.toRat]
  · norm_num [PyFloat.toRat]

/-- Claim C7 — counterexample.  A record whose line is valid JSON but whose
coordinate *field is missing* does abort the whole file: `item.pop` is
outside the `try`, its `KeyError` is uncaught, and the remaining records
are never processed (here the following good record is lost), so "one bad
record never aborts conversion of the rest" is false. -/
theorem C7_record_isolation_counterexample :
    convertFile [⟨none, some "12.97", []⟩, ⟨some "1", some "2", []⟩]
      = ⟨[], 0, true⟩ ∧
    convertFile [⟨some "1", some "2", []⟩]
      = ⟨[⟨PyFloat.num false 1 0 0, PyFloat.num false 2 0 0, []⟩], 0, false⟩ := by
  constructor <;> decide

/-- Claim C7 — amended — Record-level failure isolation holds only for parse
failures: a record whose coordinate fields are present but fail to parse
is dropped and counted while processing of the remaining records
continues; a record with a coordinate field missing raises an uncaught
`KeyError` that aborts conversion of the rest of the file. -/
theorem C7_record_isolation_amended :
    (∀ (item : RawItem) (items : List RawItem) (ls lt : String),
      item.longitude = some ls → item.lattitude = some lt →
      (pyFloat (clean ls) = none ∨ pyFloat (clean lt) = none) →
      convertFile (item :: items)
        = ⟨(convertFile items).feats, (convertFile items).rejected + 1,
           (convertFile items).aborted⟩) ∧
    (∀ (item : RawItem) (items : List RawItem),
      (item.longitude = none ∨ item.lattitude = none) →
      convertFile (item :: items) = ⟨[], 0, true⟩) := by
  constructor
  · intro item items ls lt hlon hlat hbad
    rcases hbad with hbad | hbad
    · simp [convertFile, hlon, hlat, hbad]
    · cases hpl : pyFloat (clean ls) <;>
        simp [convertFile, hlon, hlat, hpl, hbad]
  · intro item items hmiss
    rcases hmiss with hmiss | hmiss
    · cases hlat : item.lattitude <;> simp [convertFile, hmiss, hlat]
    · cases hlon : item.longitude <;> simp [convertFile, hmiss, hlon]

theorem C7_record_isolation_amended_witness :
    convertFile [⟨some "zz", some "2", []⟩] = ⟨[], 1, false⟩ ∧
    convertFile [⟨some "1", none, []⟩] = ⟨[], 0, true⟩ := by
  constructor
  · have h := C7_record_isolation_amended.1 ⟨some "zz", some "2", []⟩
      [] "zz" "2" rfl rfl (Or.inl (by decide))
    simpa [convertFile] using h
  · exact C7_record_isolation_amended.2 ⟨some "1", none, []⟩ [] (Or.inr rfl)

/-- Claim C8 — — Collation order and completeness.  Collating cache files
yields exactly the sum of the files' non-blank record lines; an input
already in lexicographic filename order is traversed in that order, each
file's records kept in sequence; every exported record carries a
`station_type` that is the classification of its own `styleUrl`
(`special` exactly on the one marker value); classification is a function
of `styleUrl` alone; and the reported special and regular counts sum to
the total. -/
theorem C8_collation :
    (∀ files : List (String × List CacheLine),
      (collate_all files).length
        = (files.map (fun f => (f.2.filter isRecordLine).length)).sum) ∧
    (∀ files : List (String × List CacheLine),
      List.Pairwise (fun a b => fileNameLe a b = true) files →
      collate_all files = files.flatMap (fun f => processFile f.2)) ∧
    (∀ files : List (String × List CacheLine), ∀ g ∈ collate_all files,
      g.props.lookup "station_type"
        = some (if (g.props.lookup "styleUrl").getD "" = SPECIAL_STYLE
                then "special" else "regular")) ∧
    (∀ f g : PFeature, f.props.lookup "styleUrl" = g.props.lookup "styleUrl" →
      classify_station f = classify_station g) ∧
    (∀ files : List (String × List CacheLine),
      specialCount (collate_all files) + regularCount (collate_all files)
        = (collate_all files).length) := by
  refine ⟨?_, ?_, ?_, ?_, ?_⟩
  · intro files
    rw [collate_all, List.length_flatMap]
    have hperm := (List.mergeSort_perm files fileNameLe).map
      (List.length ∘ fun f => processFile f.2)
    rw [hperm.sum_eq]
    simp only [Function.comp_def, processFile_length]
  · intro files hsorted
    rw [collate_all, List.mergeSort_of_sorted hsorted]
  · intro files g hg
    rw [collate_all] at hg
    rcases List.mem_flatMap.mp hg with ⟨f, _, hgf⟩
    rw [processFile] at hgf
    rcases List.mem_filterMap.mp hgf with ⟨line, _, hpl⟩
    cases line with
    | blank => simp [processLine] at hpl
    | record f0 =>
      simp only [processLine, Option.some_inj] at hpl
      subst hpl
      rw [lookup_setProp_same, lookup_setProp_ne _ _ _ _ (by decide)]
      simp [classify_station]
  · intro f g h
    simp [classify_station, h]
  · intro files
    have h := List.countP_le_length
      (p := fun f => f.props.lookup "station_type" = some "special")
      (l := collate_all files)
    simp only [specialCount, regularCount]
    omega

/-- Concrete cache-file set for the collation witness: two districts in
sorted filename order, one blank line, one unstyled record, one record
with the special marker. -/
def collateFiles0 : List (String × List CacheLine) :=
  [("a", [CacheLine.blank, CacheLine.record ⟨[]⟩]),
   ("b", [CacheLine.record ⟨[("styleUrl", "#icon-1899-0288D1")]⟩])]

theorem C8_collation_witness :
    ((collate_all collateFiles0).length
      = (collateFiles0.map (fun f => (f.2.filter isRecordLine).length)).sum) ∧
    (collate_all collateFiles0 = collateFiles0.flatMap (fun f => processFile f.2)) ∧
    ((⟨[("station_type", "special"),
        ("styleUrl", "#icon-1899-0288D1")]⟩ : PFeature).props.lookup "station_type"
      = some (if ((⟨[("station_type", "special"),
          ("styleUrl", "#icon-1899-0288D1")]⟩ : PFeature).props.lookup
            "styleUrl").getD "" = SPECIAL_STYLE
        then "special" else "regular")) ∧
    (classify_station ⟨[("styleUrl", "q")]⟩
      = classify_station ⟨[("z", "w"), ("styleUrl", "q")]⟩) ∧
    (specialCount (collate_all collateFiles0) + regularCount (collate_all collateFiles0)
      = (collate_all collateFiles0).length) := by
  refine ⟨C8_collation.1 collateFiles0, C8_collation.2.1 collateFiles0 (by decide),
    ?_, C8_collation.2.2.2.1 ⟨[("styleUrl", "q")]⟩ ⟨[("z", "w"), ("styleUrl", "q")]⟩
      (by decide), C8_collation.2.2.2.2 collateFiles0⟩
  have hs : collateFiles0.mergeSort fileNameLe = collateFiles0 :=
    List.mergeSort_of_sorted (by decide)
  have hmem : (⟨[("station_type", "special"),
      ("styleUrl", "#icon-1899-0288D1")]⟩ : PFeature) ∈ collate_all collateFiles0 := by
    rw [collate_all, hs]
    decide
  exact C8_collation.2.2.1 collateFiles0 _ hmem

/-- Claim C9 — — Authorization artifact acquired once and reused.  The token
is captured from the first successful `service_call` response and cached;
once set, every later call sends exactly the cached token in its
`authorization` header and the guarded assignment never overwrites it; a
failed call (non-ok response) raises before capture, leaving the token
unset. -/
theorem C9_token_reuse :
    (∀ resp : SvcResponse, resp.ok = true →
      (serviceCallStep none resp).1 = some resp.authHeader) ∧
    (∀ t : String,
      (serviceCallSentHeaders (some t)).lookup "authorization" = some t) ∧
    (∀ (t : String) (resp : SvcResponse),
      (serviceCallStep (some t) resp).1 = some t) ∧
    (∀ resp : SvcResponse, resp.ok = false →
      (serviceCallStep none resp).1 = none) := by
  refine ⟨?_, ?_, ?_, ?_⟩
  · intro resp h
    simp [serviceCallStep, h]
  · intro t
    rfl
  · intro t resp
    cases h : resp.ok <;> simp [serviceCallStep, h]
  · intro resp h
    simp [serviceCallStep, h]

theorem C9_token_reuse_witness :
    (serviceCallStep none ⟨true, "tok"⟩).1 = some "tok" ∧
    (serviceCallSentHeaders (some "tok")).lookup "authorization" = some "tok" ∧
    (serviceCallStep (some "tok") ⟨true, "other"⟩).1 = some "tok" ∧
    (serviceCallStep none ⟨false, "x"⟩).1 = none :=
  ⟨C9_token_reuse.1 ⟨true, "tok"⟩ rfl, C9_token_reuse.2.1 "tok",
    C9_token_reuse.2.2.1 "tok" ⟨true, "other"⟩, C9_token_reuse.2.2.2 ⟨false, "x"⟩ rfl⟩

/-- Claim C10 — — Per-district error atomicity.  If any of the four stages
fails (district page fetch, map-embed extraction, map-export fetch,
archive extraction — the disjunction characterized in the last conjunct),
`scrape_district_police_stations` returns the empty list and neither
creates nor modifies the district's cache file; the cache is written only
when the whole fetch-and-convert pipeline succeeded, as a single
whole-file write; no call ever performs more than one write. -/
theorem C10_district_atomicity :
    ∀ (F : Type) (src : DistrictSrc F) (c : Option (List F)) (force : Bool),
      (pipeline src = none →
        (scrape_district src c force).result = [] ∧
        (scrape_district src c force).cache = c ∧
        (scrape_district src c force).writes = 0) ∧
      (∀ fs, pipeline src = some fs → (force = true ∨ c = none) →
        scrape_district src c force = ⟨fs, some fs, 2, 1⟩) ∧
      (scrape_district src c force).writes ≤ 1 ∧
      (pipeline src = none ↔
        (src.pageResp = Except.error () ∨
         ∃ html, src.pageResp = Except.ok html ∧
           (src.extractId html = none ∨
            ∃ mid, src.extractId html = some mid ∧
              (src.kmlResp mid = Except.error () ∨
               ∃ kmz, src.kmlResp mid = Except.ok kmz ∧
                 src.unzip kmz = Except.error ())))) := by
  intro F src c force
  rcases src with ⟨page, eid, kml, uz, conv⟩
  refine ⟨?_, ?_, ?_, ?_⟩
  · intro hnone
    by_cases hskip : (!force && c.isSome) = true
    · simp [scrape_district, hskip]
    · replace hskip := Bool.not_eq_true _ ▸ hskip
      cases page with
      | error u =>
        cases u
        simp [scrape_district, hskip]
      | ok html =>
        cases heid : eid html with
        | none => simp [scrape_district, hskip, heid]
        | some mid =>
          cases hk : kml mid with
          | error u =>
            cases u
            simp [scrape_district, hskip, heid, hk]
          | ok kmz =>
            cases hu : uz kmz with
            | error u =>
              cases u
              simp [scrape_district, hskip, heid, hk, hu]
            | ok k =>
              simp [pipeline, heid, hk, hu] at hnone
  · intro fs hfs hforce
    have hskip : (!force && c.isSome) = false := by
      rcases hforce with rfl | rfl <;> simp
    cases page with
    | error u =>
      cases u
      simp [pipeline] at hfs
    | ok html =>
      cases heid : eid html with
      | none => simp [pipeline, heid] at hfs
      | some mid =>
        cases hk : kml mid with
        | error u =>
          cases u
          simp [pipeline, heid, hk] at hfs
        | ok kmz =>
          cases hu : uz kmz with
          | error u =>
            cases u
            simp [pipeline, heid, hk, hu] at hfs
          | ok k =>
            simp only [pipeline, heid, hk, hu, Option.some_inj] at hfs
            subst hfs
            simp [scrape_district, hskip, heid, hk, hu]
  · by_cases hskip : (!force && c.isSome) = true
    · simp [scrape_district, hskip]
    · replace hskip := Bool.not_eq_true _ ▸ hskip
      cases page with
      | error u =>
        cases u
        simp [scrape_district, hskip]
      | ok html =>
        cases heid : eid html with
        | none => simp [scrape_district, hskip, heid]
        | some mid =>
          cases hk : kml mid with
          | error u =>
            cases u
            simp [scrape_district, hskip, heid, hk]
          | ok kmz =>
            cases hu : uz kmz with
            | error u =>
              cases u
              simp [scrape_district, hskip, heid, hk, hu]
            | ok k =>
              simp [scrape_district, hskip, heid, hk, hu]
  · cases page with
    | error u =>
      cases u
      simp [pipeline]
    | ok html =>
      cases heid : eid html with
      | none => simp [pipeline, heid]
      | some mid =>
        cases hk : kml mid with
        | error u =>
          cases u
          simp [pipeline, heid, hk]
        | ok kmz =>
          cases hu : uz kmz with
          | error u =>
            cases u
            simp [pipeline, heid, hk, hu]
          | ok k =>
            simp [pipeline, heid, hk, hu]

theorem C10_district_atomicity_witness :
    ((scrape_district sampleSrcFail (none : Option (List Nat)) false).result = [] ∧
     (scrape_district sampleSrcFail (none : Option (List Nat)) false).cache = none ∧
     (scrape_district sampleSrcFail (none : Option (List Nat)) false).writes = 0) ∧
    scrape_district sampleSrcOk (none : Option (List Nat)) false
      = ⟨[7], some [7], 2, 1⟩ ∧
    (scrape_district sampleSrcOk (none : Option (List Nat)) false).writes ≤ 1 :=
  ⟨(C10_district_atomicity Nat sampleSrcFail none false).1 (by decide),
    (C10_district_atomicity Nat sampleSrcOk none false).2.1 [7] (by decide)
      (Or.inr rfl),
    (C10_district_atomicity Nat sampleSrcOk none false).2.2.1⟩

end IndianFacilities
